import Mathlib

/-!
Shallow embedding of the email-server statistics-sync backend.

Each definition is translated from the JavaScript source of the repository:
  - `src/lib/helpers/stats-merger.js` (campaign/flow metadata merging)
  - `src/lib/helpers/flow-definitions.js` (rate-limited flow-definition fetcher)
  - `src/lib/helpers/klaviyo-api.js` (paginated upstream client)
  - `src/lib/helpers/stats-sync.js` (sync orchestrator and upserts)
  - `src/lib/permissions.js` and the model statics of
    `src/models/CampaignStats.js` / `src/models/FlowStats.js` (access control).

Modelling conventions: machine timestamps are `Int` milliseconds; JavaScript
numbers in statistic vectors are `ℚ`; `undefined`/`null` object fields are
`Option`; upstream I/O is an explicit oracle (environment) argument; thrown
exceptions are `Except`; the document store is explicit state.
-/

namespace EmailServer

/-- The 27 statistic field names requested by the sync and defaulted by the
campaign merger (`stats-merger.js` lines 58-86, `stats-sync.js` statistics
lists). -/
inductive StatField
  | opens | open_rate | bounced | clicks | clicks_unique | click_rate
  | delivered | bounced_or_failed | bounced_or_failed_rate | delivery_rate
  | failed | failed_rate | recipients | opens_unique | bounce_rate
  | unsubscribe_rate | unsubscribe_uniques | unsubscribes
  | spam_complaint_rate | spam_complaints | click_to_open_rate
  | conversions | conversion_uniques | conversion_value | conversion_rate
  | average_order_value | revenue_per_recipient
deriving DecidableEq

/-- JavaScript `x || null` applied to an optional string: the empty string is
falsy, so it collapses to `null` as well. -/
def jsStrOrNull (s : Option String) : Option String :=
  match s with
  | some v => if v = "" then none else some v
  | none => none

/-- JavaScript `Boolean(x)` truthiness used by `.filter(Boolean)` on a string
map lookup: `undefined`, `null` and `""` are falsy. -/
def jsTruthyStr (s : Option (Option String)) : Option String :=
  match s with
  | some (some v) => if v = "" then none else some v
  | some none => none
  | none => none

/-- Last-write-wins object-as-map insertion used by the lookup loops in
`stats-merger.js` (`campaignMap[c.id] = c` and the like): the entry for an id
is the last list element carrying that id. -/
def lookupLast {α : Type} (key : α → String) (l : List α) (id : String) : Option α :=
  l.reverse.find? (fun x => key x == id)

/-! ## stats-merger.js : campaign merge -/

/-- Grouping key of a raw campaign statistic row
(`campaignValuesReports.data.attributes.results[k].groupings`). -/
structure Groupings where
  send_channel : String
  campaign_id : String
  campaign_message_id : String
deriving DecidableEq

/-- A raw campaign statistic row: grouping plus a partial statistics object
(fields the upstream omitted are absent). -/
structure RawRow where
  groupings : Groupings
  statistics : StatField → Option ℚ

/-- Campaign metadata entry (`campaigns.data[k]` / `smsCampaigns.data[k]`),
with the attribute paths the merger reads. -/
structure Campaign where
  id : String
  name : Option String
  audiences_included : List String
  audiences_excluded : List String
  tagRelIds : List String
  send_time : Option Int
  created_at : Option Int
  scheduled_at : Option Int
  updated_at : Option Int

/-- Tag metadata entry (`tags.data[k]`): id and `attributes?.name`. -/
structure Tag where
  id : String
  name : Option String

/-- Segment or list metadata entry: id and `attributes?.name`. -/
structure NamedEntity where
  id : String
  name : Option String

/-- Output record of `mergeCampaignStatsWithMeta` for one raw row. -/
structure MergedCampaignRecord where
  groupings : Groupings
  statistics : StatField → ℚ
  campaign_name : Option String
  included_audiences : List String
  excluded_audiences : List String
  included_audiences_names : List String
  excluded_audiences_names : List String
  tagIds : List String
  tagNames : List String
  send_time : Option Int
  created_at : Option Int
  scheduled_at : Option Int
  updated_at : Option Int

/-- The body of the `.map` in `mergeCampaignStatsWithMeta`: merge one raw row
with campaign / tag / audience metadata. `campaignLookup`, `tagNameLookup` and
`audienceNameLookup` are the three object maps built by the function; a map
entry value of `none` models the stored `null` (from `|| null`). -/
def mergeCampaignOne (campaignLookup : String → Option Campaign)
    (tagNameLookup : String → Option (Option String))
    (audienceNameLookup : String → Option (Option String))
    (r : RawRow) : MergedCampaignRecord :=
  let campaign := campaignLookup r.groupings.campaign_id
  let tagIds := (campaign.map (·.tagRelIds)).getD []
  let includedAudienceIds := (campaign.map (·.audiences_included)).getD []
  let excludedAudienceIds := (campaign.map (·.audiences_excluded)).getD []
  { groupings := r.groupings
    statistics := fun f => (r.statistics f).getD 0
    campaign_name := jsStrOrNull (campaign.bind (·.name))
    included_audiences := includedAudienceIds
    excluded_audiences := excludedAudienceIds
    included_audiences_names := includedAudienceIds.filterMap (fun id => jsTruthyStr (audienceNameLookup id))
    excluded_audiences_names := excludedAudienceIds.filterMap (fun id => jsTruthyStr (audienceNameLookup id))
    tagIds := tagIds
    tagNames := tagIds.filterMap (fun id => jsTruthyStr (tagNameLookup id))
    send_time := campaign.bind (·.send_time)
    created_at := campaign.bind (·.created_at)
    scheduled_at := campaign.bind (·.scheduled_at)
    updated_at := campaign.bind (·.updated_at) }

/-- Channel predicate of the `.filter` in `mergeCampaignStatsWithMeta`. -/
def campaignChannelOk (r : RawRow) : Bool :=
  r.groupings.send_channel == "email" || r.groupings.send_channel == "sms"

/-- `mergeCampaignStatsWithMeta(results, campaigns, smsCampaigns, segments,
lists, tags)` from `stats-merger.js`: build the lookup maps (email campaigns
then sms campaigns; tag names; segment then list names), drop rows whose
channel is neither email nor sms, and merge each remaining row. -/
def mergeCampaignStatsWithMeta (results : List RawRow)
    (campaigns smsCampaigns : List Campaign)
    (segments lists : List NamedEntity) (tags : List Tag) :
    List MergedCampaignRecord :=
  let campaignLookup := lookupLast Campaign.id (campaigns ++ smsCampaigns)
  let tagNameLookup := fun id => (lookupLast Tag.id tags id).map (fun t => jsStrOrNull t.name)
  let audienceNameLookup := fun id =>
    (lookupLast NamedEntity.id (segments ++ lists) id).map (fun e => jsStrOrNull e.name)
  (results.filter campaignChannelOk).map
    (mergeCampaignOne campaignLookup tagNameLookup audienceNameLookup)

/-! ## stats-merger.js : flow merge -/

/-- Grouping key of a raw flow statistic row
(`flowSeriesReports.data.attributes.results[k].groupings`). -/
structure FlowGroupings where
  flow_id : String
  flow_message_id : String
  send_channel : String
deriving DecidableEq

/-- A raw flow statistic row: grouping plus per-metric time-series arrays,
passed through unchanged by the merger. -/
structure RawFlowRow where
  groupings : FlowGroupings
  statistics : StatField → List ℚ

/-- Flow metadata entry (`flows.data[k]`), with the attribute paths the
merger reads. -/
structure Flow where
  id : String
  name : Option String
  status : Option String
  archived : Option Bool
  created : Option Int
  updated : Option Int
  trigger_type : Option String
  tagRelIds : List String

/-- Experiment detail fields that `extractExperimentDetails` adds only when
the action carries a current experiment (`flow-definitions.js`). -/
structure ExperimentDetails where
  experiment_id : Option String
  experiment_name : Option String
  experiment_status : Option String
  experiment_winner_metric : Option String

/-- One entry of the message-details lookup built by `buildMessageDetailsMap`:
the eight message fields from `extractMessageDetails` are always present,
`has_experiment` is always present, and the remaining experiment fields are
present only for A/B-test actions. -/
structure MessageDetails where
  message_name : Option String
  message_from_email : Option String
  message_from_label : Option String
  message_subject_line : Option String
  message_preview_text : Option String
  message_template_id : Option String
  message_transactional : Bool
  message_smart_sending_enabled : Bool
  has_experiment : Bool
  experiment : Option ExperimentDetails

/-- Output record of `mergeFlowStatsWithMeta` for one raw row.  `details` is
`some` exactly when `messageDetailsMap[flow_message_id]` exists; the splat of
an absent entry leaves every message/experiment field unset. -/
structure MergedFlowRecord where
  flow_id : String
  flow_message_id : String
  send_channel : String
  flow_name : Option String
  flow_status : Option String
  flow_archived : Bool
  flow_created : Option Int
  flow_updated : Option Int
  flow_trigger_type : Option String
  tagIds : List String
  tagNames : List String
  statistics : StatField → List ℚ
  details : Option MessageDetails

/-- The body of the `.map` in `mergeFlowStatsWithMeta`: merge one raw row with
flow metadata, tag names and the message-details lookup. -/
def mergeFlowOne (flowLookup : String → Option Flow)
    (tagNameLookup : String → Option (Option String))
    (messageDetailsMap : String → Option MessageDetails)
    (stat : RawFlowRow) : MergedFlowRecord :=
  let flow := flowLookup stat.groupings.flow_id
  let tagIds := (flow.map (·.tagRelIds)).getD []
  { flow_id := stat.groupings.flow_id
    flow_message_id := stat.groupings.flow_message_id
    send_channel := stat.groupings.send_channel
    flow_name := jsStrOrNull (flow.bind (·.name))
    flow_status := jsStrOrNull (flow.bind (·.status))
    flow_archived := ((flow.bind (·.archived)).getD false)
    flow_created := flow.bind (·.created)
    flow_updated := flow.bind (·.updated)
    flow_trigger_type := jsStrOrNull (flow.bind (·.trigger_type))
    tagIds := tagIds
    tagNames := tagIds.filterMap (fun id => jsTruthyStr (tagNameLookup id))
    statistics := stat.statistics
    details := messageDetailsMap stat.groupings.flow_message_id }

/-- `mergeFlowStatsWithMeta(results, flows, tags, messageDetailsMap)` from
`stats-merger.js`: build the flow and tag lookup maps and merge each raw row
individually (no aggregation across rows). -/
def mergeFlowStatsWithMeta (results : List RawFlowRow) (flows : List Flow)
    (tags : List Tag) (messageDetailsMap : String → Option MessageDetails) :
    List MergedFlowRecord :=
  let flowLookup := lookupLast Flow.id flows
  let tagNameLookup := fun id => (lookupLast Tag.id tags id).map (fun t => jsStrOrNull t.name)
  results.map (mergeFlowOne flowLookup tagNameLookup messageDetailsMap)

/-! ## flow-definitions.js : rate-limited flow-definition fetcher

The loop in `getFlowDefinitions` mutates its `flowIds` array (`splice`) and
is driven by wall-clock time (`Date.now()`).  The embedding threads the
mutated array explicitly and takes the elapsed wall-clock time observed at
the start of each iteration from an oracle `elapsedMs : Nat → Nat`, indexed
by iteration count, in integer milliseconds.  The JavaScript floating-point
expression `elapsedSeconds = (Date.now() - startTime) / 1000` and the
comparisons on it are modelled as exact arithmetic scaled by 1000. -/

/-- `Math.min(30, 3 * Math.max(1, elapsedSeconds))`, scaled by 1000. -/
def burstLimit1000 (elapsedMs : Nat) : Nat := min 30000 (3 * max 1000 elapsedMs)

/-- The `effectiveBatchSize` computation of `getFlowDefinitions`
(`flow-definitions.js` lines 50-64): under burst pressure before 10 seconds
have elapsed, shrink the batch to `max(1, floor(burstLimit - totalRequests))`;
from 10 seconds on, force batch size 1; otherwise keep the whole batch. -/
def effectiveBatchSize (batchLen totalRequests elapsedMs : Nat) : Nat :=
  if 1000 * (totalRequests + batchLen) > burstLimit1000 elapsedMs ∧ elapsedMs < 10000 then
    max 1 ((burstLimit1000 elapsedMs - 1000 * totalRequests) / 1000)
  else if 10000 ≤ elapsedMs then 1
  else batchLen

/-- Oracle for one run of `getFlowDefinitions`: the elapsed wall-clock
milliseconds observed at iteration `k`, and the outcome of
`getFlowDefinition id` (`none` models a caught per-item fetch error, which
the JavaScript maps to `null`). -/
structure RateEnv where
  elapsedMs : Nat → Nat
  fetch : String → Option String

/-- `flowIds.slice(i, i + batchSize)` with `batchSize = maxBurst = 3`. -/
def batchAt (flowIds : List String) (i : Nat) : List String :=
  (flowIds.drop i).take 3

/-- The effective batch size computed at loop position `i`, iteration
`iter`. -/
def effAt (env : RateEnv) (flowIds : List String) (i iter totalRequests : Nat) : Nat :=
  effectiveBatchSize (batchAt flowIds i).length totalRequests (env.elapsedMs iter)

/-- The `for (let i = 0; i < flowIds.length; i += batchSize)` loop of
`getFlowDefinitions`: fetch `batch.slice(0, effectiveBatchSize)`, append the
non-null responses to `results`, and when the batch was under-sized splice
the dropped tail of the batch back into `flowIds` at `i + effectiveBatchSize`
(splicing an empty tail is the identity, so the embedding splices
unconditionally).  `attempted` instruments which ids were passed to the
fetcher. -/
def getFlowDefinitionsGo (env : RateEnv) (flowIds : List String)
    (i iter totalRequests : Nat) (results attempted : List String) :
    List String × List String :=
  if _h : i < flowIds.length then
    getFlowDefinitionsGo env
      (flowIds.take (i + effAt env flowIds i iter totalRequests)
        ++ (batchAt flowIds i).drop (effAt env flowIds i iter totalRequests)
        ++ flowIds.drop (i + effAt env flowIds i iter totalRequests))
      (i + 3) (iter + 1)
      (totalRequests + ((batchAt flowIds i).take (effAt env flowIds i iter totalRequests)).length)
      (results ++ ((batchAt flowIds i).take (effAt env flowIds i iter totalRequests)).filterMap env.fetch)
      (attempted ++ (batchAt flowIds i).take (effAt env flowIds i iter totalRequests))
  else (results, attempted)
termination_by flowIds.length - i
decreasing_by
  simp only [List.length_append, List.length_take, List.length_drop, batchAt, effAt]
  have he : 1 ≤ effectiveBatchSize (min 3 (flowIds.length - i)) totalRequests
      (env.elapsedMs iter) := by
    simp only [effectiveBatchSize]
    split
    · omega
    · split <;> omega
  omega

/-- `getFlowDefinitions(flowIds, opts)` of `flow-definitions.js`, returning
the successfully fetched definitions together with the instrumented list of
ids whose fetch was attempted. -/
def getFlowDefinitionsRun (env : RateEnv) (flowIds : List String) :
    List String × List String :=
  getFlowDefinitionsGo env flowIds 0 0 0 [] []

/-- The result list actually returned by `getFlowDefinitions`. -/
def getFlowDefinitions (env : RateEnv) (flowIds : List String) : List String :=
  (getFlowDefinitionsRun env flowIds).1

/-! ## klaviyo-api.js : paginated aggregation -/

/-- One upstream page as consumed by `klaviyoGetAll`: the primary `data`
array, the side-loaded `included` array, and `links.next` (modelled as the
index of the next page in the oracle). -/
structure Page where
  data : List String
  included : List String
  next : Option Nat

/-- The `while (url)` loop of `klaviyoGetAll` (`klaviyo-api.js` lines 65-86),
instrumented with a step counter `fuel`: each step fetches the current page,
concatenates `data` and `included`, and follows `links.next` when present.
The source contains no iteration cap and no error for excessive pagination,
so the loop completes (`some`) exactly when a page without a next link is
reached within `fuel` steps; `none` means the loop is still running after
`fuel` pages. -/
def klaviyoGetAllGo (pages : Nat → Page) :
    Nat → Nat → List String → List String → Option (List String × List String)
  | 0, _, _, _ => none
  | fuel + 1, url, accData, accInc =>
    match (pages url).next with
    | none => some (accData ++ (pages url).data, accInc ++ (pages url).included)
    | some u => klaviyoGetAllGo pages fuel u (accData ++ (pages url).data) (accInc ++ (pages url).included)

/-- An upstream page oracle whose `next` links never terminate. -/
def infinitePages : Nat → Page := fun n => { data := [], included := [], next := some (n + 1) }

/-! ## permissions.js and the searchWithAccessControl statics -/

/-- One entry of `user.stores`: the account grant carried by a `User`
document (`models/User.js`). `permissions` is `none` when the field is
absent. -/
structure StoreAccess where
  store_public_id : String
  permissions : Option (List String)

/-- `hasPermission(storeAccess, requiredPermission)` from
`src/lib/permissions.js`: false when the grant or its permission list is
missing; `ADMIN` grants everything; otherwise membership of the required
permission. -/
def hasPermission (storeAccess : Option StoreAccess) (requiredPermission : String) : Bool :=
  match storeAccess with
  | none => false
  | some sa =>
    match sa.permissions with
    | none => false
    | some perms => perms.contains "ADMIN" || perms.contains requiredPermission

/-- A `User` document as read by `searchWithAccessControl`. -/
structure User where
  stores : List StoreAccess

/-- The fields of a persisted campaign stat record that
`CampaignStats.searchWithAccessControl` queries. -/
structure SearchRecord where
  store_public_id : String
  campaign_name : Option String
  created_at : Option Int
deriving DecidableEq

/-- Case-insensitive substring check modelling the `$regex`/`$options: "i"`
match for a plain (meta-character free) query string. -/
def charsPrefixOf : List Char → List Char → Bool
  | [], _ => true
  | _ :: _, [] => false
  | a :: as, b :: bs => a == b && charsPrefixOf as bs

def charsSubOf (pat : List Char) : List Char → Bool
  | [] => charsPrefixOf pat []
  | h :: t => charsPrefixOf pat (h :: t) || charsSubOf pat t

def containsCI (hay pat : String) : Bool :=
  charsSubOf pat.toLower.toList hay.toLower.toList

/-- The Mongo filter document built by `searchWithAccessControl`
(`models/CampaignStats.js` lines 80-102): the record's account must be one of
the accessible public ids; a non-blank query adds an `$or` of two
case-insensitive name matches; a date range adds an inclusive `created_at`
window (a record without `created_at` does not match the range). -/
def searchMatches (storePublicIds : List String) (query : Option String)
    (dateRange : Option (Int × Int)) (r : SearchRecord) : Bool :=
  storePublicIds.contains r.store_public_id
  && (match query with
      | none => true
      | some q =>
        if q.trim = "" then true
        else
          (match r.campaign_name with
           | some nm => containsCI nm q
           | none => false)
          || containsCI r.store_public_id q)
  && (match dateRange with
      | none => true
      | some (lo, hi) =>
        match r.created_at with
        | some t => decide (lo ≤ t) && decide (t ≤ hi)
        | none => false)

/-- `find(searchQuery).sort(sort).skip(skip).limit(limit)` over the stored
collection, with the Mongo sort modelled as a comparator sort of the
filtered documents. -/
def runFind (db : List SearchRecord) (pred : SearchRecord → Bool)
    (le : SearchRecord → SearchRecord → Bool) (skip limit : Nat) : List SearchRecord :=
  (((db.filter pred).insertionSort (fun a b => le a b = true)).drop skip).take limit

/-- The grant filter of `searchWithAccessControl`:
`user.stores.filter(storeAccess => hasPermission(storeAccess,
requiredPermission))`. -/
def accessibleStores (user : User) (requiredPermission : String) : List StoreAccess :=
  user.stores.filter (fun sa => hasPermission (some sa) requiredPermission)

/-- `CampaignStat.searchWithAccessControl(userId, query, options)` from
`models/CampaignStats.js` (the `FlowStats.js` static has the same shape):
resolve the user, keep the store grants passing `hasPermission`, and return
`([], 0)` for an unknown user or an empty accessible set; otherwise run the
filtered, sorted, paged find plus the matching count. -/
def searchWithAccessControl (users : String → Option User) (db : List SearchRecord)
    (userId : String) (query : Option String) (requiredPermission : String)
    (le : SearchRecord → SearchRecord → Bool) (skip limit : Nat)
    (dateRange : Option (Int × Int)) : List SearchRecord × Nat :=
  match users userId with
  | none => ([], 0)
  | some user =>
    if (accessibleStores user requiredPermission).isEmpty then ([], 0)
    else
      (runFind db
        (searchMatches ((accessibleStores user requiredPermission).map (·.store_public_id))
          query dateRange) le skip limit,
       (db.filter
        (searchMatches ((accessibleStores user requiredPermission).map (·.store_public_id))
          query dateRange)).length)

/-! ## stats-sync.js : persisted documents and upserts -/

/-- A persisted campaign stat document (`models/CampaignStats.js` schema).
Every schema field is listed; the upsert's `$set` spreads the merged record,
which supplies all of them. -/
structure CampaignStatDoc where
  store_id : String
  store_public_id : String
  groupings : Groupings
  statistics : StatField → ℚ
  campaign_name : Option String
  included_audiences : List String
  excluded_audiences : List String
  included_audiences_names : List String
  excluded_audiences_names : List String
  tagIds : List String
  tagNames : List String
  send_time : Option Int
  created_at : Option Int
  scheduled_at : Option Int
  updated_at : Option Int

/-- A document with no field ever set, used when an upsert inserts. -/
def emptyCampaignDoc : CampaignStatDoc :=
  { store_id := ""
    store_public_id := ""
    groupings := { send_channel := "", campaign_id := "", campaign_message_id := "" }
    statistics := fun _ => 0
    campaign_name := none
    included_audiences := []
    excluded_audiences := []
    included_audiences_names := []
    excluded_audiences_names := []
    tagIds := []
    tagNames := []
    send_time := none
    created_at := none
    scheduled_at := none
    updated_at := none }

/-- The `$set: { ...stat, store_id, store_public_id }` of
`upsertCampaignStats` (`stats-sync.js` lines 176-188) applied to a stored
document: the merged record carries every schema field, so every stored field
is overwritten. -/
def applyCampaignSet (old : CampaignStatDoc) (stat : MergedCampaignRecord)
    (storeId storePublicId : String) : CampaignStatDoc :=
  { old with
    store_id := storeId
    store_public_id := storePublicId
    groupings := stat.groupings
    statistics := stat.statistics
    campaign_name := stat.campaign_name
    included_audiences := stat.included_audiences
    excluded_audiences := stat.excluded_audiences
    included_audiences_names := stat.included_audiences_names
    excluded_audiences_names := stat.excluded_audiences_names
    tagIds := stat.tagIds
    tagNames := stat.tagNames
    send_time := stat.send_time
    created_at := stat.created_at
    scheduled_at := stat.scheduled_at
    updated_at := stat.updated_at }

/-- The campaign upsert filter: `store_id` plus `groupings.campaign_id`. -/
def campaignKeyMatches (d : CampaignStatDoc) (storeId : String)
    (stat : MergedCampaignRecord) : Bool :=
  d.store_id == storeId && d.groupings.campaign_id == stat.groupings.campaign_id

/-- `CampaignStat.updateOne(filter, { $set }, { upsert: true })`: update the
first stored document matching the filter, or insert when none matches. -/
def upsertCampaignOne (storeId storePublicId : String) (stat : MergedCampaignRecord) :
    List CampaignStatDoc → List CampaignStatDoc
  | [] => [applyCampaignSet emptyCampaignDoc stat storeId storePublicId]
  | d :: rest =>
    if campaignKeyMatches d storeId stat then
      applyCampaignSet d stat storeId storePublicId :: rest
    else
      d :: upsertCampaignOne storeId storePublicId stat rest

/-- The `for (const stat of merged)` loop of `upsertCampaignStats`. -/
def upsertCampaignStatsDb (db : List CampaignStatDoc)
    (merged : List MergedCampaignRecord) (storeId storePublicId : String) :
    List CampaignStatDoc :=
  merged.foldl (fun acc stat => upsertCampaignOne storeId storePublicId stat acc) db

/-- A persisted flow stat document (`models/FlowStats.js` schema), with the
fields touched by `upsertFlowStats`.  Message and experiment fields are
`Option` because the `$set` leaves them unset when the merged record does not
carry them. -/
structure FlowStatDoc where
  store : String
  store_public_id : String
  flow_id : String
  flow_message_id : String
  send_channel : String
  flow_name : Option String
  flow_status : Option String
  flow_archived : Bool
  flow_created : Option Int
  flow_updated : Option Int
  flow_trigger_type : Option String
  tagIds : List String
  tagNames : List String
  statistics : StatField → List ℚ
  message_name : Option String
  message_from_email : Option String
  message_from_label : Option String
  message_subject_line : Option String
  message_preview_text : Option String
  message_template_id : Option String
  message_transactional : Option Bool
  message_smart_sending_enabled : Option Bool
  has_experiment : Option Bool
  experiment_id : Option String
  experiment_name : Option String
  experiment_status : Option String
  experiment_winner_metric : Option String
  last_updated : Option Int

/-- A flow document with no field ever set, used when an upsert inserts. -/
def emptyFlowDoc : FlowStatDoc :=
  { store := ""
    store_public_id := ""
    flow_id := ""
    flow_message_id := ""
    send_channel := ""
    flow_name := none
    flow_status := none
    flow_archived := false
    flow_created := none
    flow_updated := none
    flow_trigger_type := none
    tagIds := []
    tagNames := []
    statistics := fun _ => []
    message_name := none
    message_from_email := none
    message_from_label := none
    message_subject_line := none
    message_preview_text := none
    message_template_id := none
    message_transactional := none
    message_smart_sending_enabled := none
    has_experiment := none
    experiment_id := none
    experiment_name := none
    experiment_status := none
    experiment_winner_metric := none
    last_updated := none }

/-- The `$set: { ...stat, store, store_public_id, last_updated }` of
`upsertFlowStats` (`stats-sync.js` lines 199-217) applied to a stored
document.  `$set` only touches the keys present in the merged record: the
always-present flow fields are overwritten; the message fields (and
`has_experiment`) are overwritten only when the record carries message
details, and the experiment detail fields only when those details carry an
experiment — otherwise the previously stored values remain. -/
def applyFlowSet (old : FlowStatDoc) (stat : MergedFlowRecord)
    (storeId storePublicId : String) (now : Int) : FlowStatDoc :=
  let base := { old with
    store := storeId
    store_public_id := storePublicId
    flow_id := stat.flow_id
    flow_message_id := stat.flow_message_id
    send_channel := stat.send_channel
    flow_name := stat.flow_name
    flow_status := stat.flow_status
    flow_archived := stat.flow_archived
    flow_created := stat.flow_created
    flow_updated := stat.flow_updated
    flow_trigger_type := stat.flow_trigger_type
    tagIds := stat.tagIds
    tagNames := stat.tagNames
    statistics := stat.statistics
    last_updated := some now }
  match stat.details with
  | none => base
  | some d =>
    let withMsg := { base with
      message_name := d.message_name
      message_from_email := d.message_from_email
      message_from_label := d.message_from_label
      message_subject_line := d.message_subject_line
      message_preview_text := d.message_preview_text
      message_template_id := d.message_template_id
      message_transactional := some d.message_transactional
      message_smart_sending_enabled := some d.message_smart_sending_enabled
      has_experiment := some d.has_experiment }
    match d.experiment with
    | none => withMsg
    | some e => { withMsg with
        experiment_id := e.experiment_id
        experiment_name := e.experiment_name
        experiment_status := e.experiment_status
        experiment_winner_metric := e.experiment_winner_metric }

/-- The flow upsert filter: `store`, `flow_id`, `flow_message_id` and
`send_channel`. -/
def flowKeyMatches (d : FlowStatDoc) (storeId : String) (stat : MergedFlowRecord) : Bool :=
  d.store == storeId && d.flow_id == stat.flow_id
    && d.flow_message_id == stat.flow_message_id && d.send_channel == stat.send_channel

/-- `FlowStat.updateOne(filter, { $set }, { upsert: true })`. -/
def upsertFlowOne (storeId storePublicId : String) (now : Int) (stat : MergedFlowRecord) :
    List FlowStatDoc → List FlowStatDoc
  | [] => [applyFlowSet emptyFlowDoc stat storeId storePublicId now]
  | d :: rest =>
    if flowKeyMatches d storeId stat then
      applyFlowSet d stat storeId storePublicId now :: rest
    else
      d :: upsertFlowOne storeId storePublicId now stat rest

/-- The `for (const stat of merged)` loop of `upsertFlowStats`. -/
def upsertFlowStatsDb (db : List FlowStatDoc) (merged : List MergedFlowRecord)
    (storeId storePublicId : String) (now : Int) : List FlowStatDoc :=
  merged.foldl (fun acc stat => upsertFlowOne storeId storePublicId now stat acc) db

/-! ## stats-sync.js : klaviyoUpdateStats orchestrator -/

/-- The account (Store) row (`models/Store.js` fields read or written by the
sync). -/
structure KlaviyoIntegration where
  apiKey : String
  conversion_metric_id : String
  flow_date_times : List Int

structure Store where
  id : String
  public_id : String
  last_dashboard_sync : Option Int
  is_updating_dashboard : Bool
  tagNames : List String
  klaviyo_integration : KlaviyoIntegration

/-- The persisted state touched by one sync: the account row and the two
stat collections. -/
structure DBState where
  storeRow : Store
  campaignStats : List CampaignStatDoc
  flowStats : List FlowStatDoc

/-- Errors a sync can surface: the `RangeError` thrown by
`new Date(undefined).toISOString()`, or a failed upstream fetch. -/
inductive SyncError
  | invalidDate
  | upstream (msg : String)
deriving DecidableEq

/-- Outcomes of the eight fan-out upstream fetches of `klaviyoUpdateStats`
(in the order the source lists them inside `Promise.all`). -/
structure FetchOutcomes where
  campaigns : Except String (List Campaign)
  smsCampaigns : Except String (List Campaign)
  tags : Except String (List Tag)
  flows : Except String (List Flow)
  segments : Except String (List NamedEntity)
  lists : Except String (List NamedEntity)
  campaignValuesReports : Except String (List RawRow)
  flowSeriesReports : Except String (List RawFlowRow × Option (List Int))

/-- `Promise.all` over the eight fetches: the value tuple when all succeed,
otherwise a failed fetch's error (deterministically the first in source
order). -/
def allEight (f : FetchOutcomes) :
    Except String ((List Campaign) × (List Campaign) × (List Tag) × (List Flow)
      × (List NamedEntity) × (List NamedEntity) × (List RawRow)
      × (List RawFlowRow × Option (List Int))) := do
  let a ← f.campaigns
  let b ← f.smsCampaigns
  let c ← f.tags
  let d ← f.flows
  let e ← f.segments
  let g ← f.lists
  let cv ← f.campaignValuesReports
  let fs ← f.flowSeriesReports
  return (a, b, c, d, e, g, cv, fs)

/-- Environment of one sync attempt: the current clock, the outcomes of the
eight fan-out fetches, and the message-details lookup that
`getFlowDefinitions` plus `buildMessageDetailsMap` produce for the given
unique flow ids (that stage is rate-limited I/O modelled separately by
`getFlowDefinitionsRun`; it catches its per-item errors and cannot fail the
sync, so here it is an oracle). -/
structure SyncEnv where
  now : Int
  fetches : FetchOutcomes
  messageDetailsOf : List String → (String → Option MessageDetails)

/-- `FRESHNESS_THRESHOLD_MS = 1 * 60 * 1000` (`stats-sync.js` line 10). -/
def FRESHNESS_THRESHOLD_MS : Int := 1 * 60 * 1000

/-- `new Date(t).toISOString()` for an optional timestamp:
`new Date(undefined)` is `Invalid Date` and `toISOString` throws a
`RangeError`.  The rendered text is never inspected downstream, so it is
abstracted as `toString`. -/
def toISOStringOfSync (lastSync : Option Int) : Except SyncError String :=
  match lastSync with
  | some t => Except.ok (toString t)
  | none => Except.error SyncError.invalidDate

/-- `[...new Set(l)]`: deduplication keeping first occurrences. -/
def jsSetDedup (l : List String) : List String :=
  l.foldl (fun acc x => if acc.contains x then acc else acc ++ [x]) []

/-- The eight fan-out endpoints, used to instrument which upstream calls a
sync attempt issues. -/
def fanOutEndpoints : List String :=
  ["campaigns:email", "campaigns:sms", "tags", "flows", "segments", "lists",
   "campaign-values-reports", "flow-series-reports"]

/-- The freshness/lock gate of `klaviyoUpdateStats` (`stats-sync.js` lines
12-18): `lastSync` reads as 0 when `last_dashboard_sync` is unset, and the
sync is skipped when the flag is set or the data is fresh. -/
def syncGate (env : SyncEnv) (store : Store) : Bool :=
  store.is_updating_dashboard ||
    decide (env.now - (match store.last_dashboard_sync with | some t => t | none => 0)
      < FRESHNESS_THRESHOLD_MS)

/-- `klaviyoUpdateStats(store, date)` from `stats-sync.js`.  Returns the
result surfaced to the caller (`Except`), the persisted state after the
attempt, and the list of upstream calls issued.  Control flow follows the
source: freshness/lock gate, from-date computation (which can throw before
anything is written), lock flag set, fan-out fetches (failure clears the flag
and rethrows), merge, store-row update, campaign upserts, flow upserts. -/
def klaviyoUpdateStats (env : SyncEnv) (st : DBState) (store : Store)
    (date : Option Int) : Except SyncError Store × DBState × List String :=
  if syncGate env store then
    (Except.ok store, st, [])
  else
    match (match date with
           | some d => Except.ok (toString d)
           | none => toISOStringOfSync store.last_dashboard_sync) with
    | Except.error e => (Except.error e, st, [])
    | Except.ok _fromDate =>
      let st1 : DBState := { st with storeRow := { st.storeRow with is_updating_dashboard := true } }
      match allEight env.fetches with
      | Except.error e =>
        (Except.error (SyncError.upstream e),
         { st1 with storeRow := { st1.storeRow with is_updating_dashboard := false } },
         fanOutEndpoints)
      | Except.ok (campaigns, smsCampaigns, tags, flows, segments, lists, cvResults, fsReport) =>
        let merged := mergeCampaignStatsWithMeta cvResults campaigns smsCampaigns segments lists tags
        let uniqueFlowIds := jsSetDedup (fsReport.1.map (fun r => r.groupings.flow_id))
        let messageDetailsMap := env.messageDetailsOf uniqueFlowIds
        let mergedFlows := mergeFlowStatsWithMeta fsReport.1 flows tags messageDetailsMap
        let tagNames := tags.filterMap (fun t => jsStrOrNull t.name)
        let flowDateTimes := fsReport.2.getD []
        let st2 : DBState := { st1 with storeRow := { st1.storeRow with
          last_dashboard_sync := some env.now
          tagNames := tagNames
          is_updating_dashboard := false
          klaviyo_integration := { st1.storeRow.klaviyo_integration with
            flow_date_times := flowDateTimes } } }
        let st3 : DBState := { st2 with
          campaignStats := upsertCampaignStatsDb st2.campaignStats merged store.id store.public_id }
        let st4 : DBState := { st3 with
          flowStats := upsertFlowStatsDb st3.flowStats mergedFlows store.id store.public_id env.now }
        (Except.ok st2.storeRow, st4, fanOutEndpoints ++ ["flow-definitions"])

/-- At least one of the eight fan-out fetches failed. -/
def anyFetchFailed (f : FetchOutcomes) : Prop :=
  (∃ e, f.campaigns = Except.error e) ∨ (∃ e, f.smsCampaigns = Except.error e) ∨
  (∃ e, f.tags = Except.error e) ∨ (∃ e, f.flows = Except.error e) ∨
  (∃ e, f.segments = Except.error e) ∨ (∃ e, f.lists = Except.error e) ∨
  (∃ e, f.campaignValuesReports = Except.error e) ∨
  (∃ e, f.flowSeriesReports = Except.error e)

/-! ## Concrete inputs used by witnesses and counterexamples -/

/-- Rate-limiter oracle for the C1 run: the first loop iteration starts at
0 ms elapsed, every later one at 1500 ms (a second burst-window delay plus
request latency), and every fetch succeeds, returning its own id. -/
def c1Env : RateEnv :=
  { elapsedMs := fun k => if k = 0 then 0 else 1500
    fetch := fun s => some s }

/-- A page oracle with a single page and no next link. -/
def singlePage : Nat → Page :=
  fun _ => { data := ["item"], included := [], next := none }

/-- Fetch outcomes in which all eight fan-out fetches succeed with empty
payloads. -/
def okFetches : FetchOutcomes :=
  { campaigns := Except.ok []
    smsCampaigns := Except.ok []
    tags := Except.ok []
    flows := Except.ok []
    segments := Except.ok []
    lists := Except.ok []
    campaignValuesReports := Except.ok []
    flowSeriesReports := Except.ok ([], none) }

/-- Store row, state and environments for the sync-orchestrator witnesses. -/
def c2Store : Store :=
  { id := "s1", public_id := "p1", last_dashboard_sync := some 0,
    is_updating_dashboard := false, tagNames := [],
    klaviyo_integration := { apiKey := "k", conversion_metric_id := "cm", flow_date_times := [] } }

def c2Fetches : FetchOutcomes := { okFetches with campaigns := Except.error "boom" }

def c2Env : SyncEnv :=
  { now := 1000000, fetches := c2Fetches, messageDetailsOf := fun _ => fun _ => none }

def c2St : DBState := { storeRow := c2Store, campaignStats := [], flowStats := [] }

def c3Store : Store :=
  { id := "s3", public_id := "p3", last_dashboard_sync := none,
    is_updating_dashboard := true, tagNames := [],
    klaviyo_integration := { apiKey := "k", conversion_metric_id := "cm", flow_date_times := [] } }

def c3Env : SyncEnv :=
  { now := 0, fetches := okFetches, messageDetailsOf := fun _ => fun _ => none }

def c3St : DBState := { storeRow := c3Store, campaignStats := [], flowStats := [] }

def c10Store : Store :=
  { id := "s10", public_id := "p10", last_dashboard_sync := none,
    is_updating_dashboard := false, tagNames := [],
    klaviyo_integration := { apiKey := "k", conversion_metric_id := "cm", flow_date_times := [] } }

def c10Env : SyncEnv :=
  { now := 1000000, fetches := okFetches, messageDetailsOf := fun _ => fun _ => none }

def c10St : DBState := { storeRow := c10Store, campaignStats := [], flowStats := [] }

/-- Raw rows, merged records and documents for the merger and upsert
witnesses. -/
def c5Row : RawRow :=
  { groupings := { send_channel := "email", campaign_id := "c1", campaign_message_id := "m1" }
    statistics := fun f => if f = StatField.opens then some 5 else none }

def c5Rec : MergedCampaignRecord :=
  mergeCampaignOne (lookupLast Campaign.id ([] ++ []))
    (fun id => (lookupLast Tag.id [] id).map (fun t => jsStrOrNull t.name))
    (fun id => (lookupLast NamedEntity.id ([] ++ []) id).map (fun e => jsStrOrNull e.name))
    c5Row

def c6RowEmail : RawRow :=
  { groupings := { send_channel := "email", campaign_id := "c1", campaign_message_id := "m1" }
    statistics := fun _ => none }

def c6RowPush : RawRow :=
  { groupings := { send_channel := "push-notification", campaign_id := "c2", campaign_message_id := "m2" }
    statistics := fun _ => none }

def c6Rec : MergedCampaignRecord :=
  mergeCampaignOne (lookupLast Campaign.id ([] ++ []))
    (fun id => (lookupLast Tag.id [] id).map (fun t => jsStrOrNull t.name))
    (fun id => (lookupLast NamedEntity.id ([] ++ []) id).map (fun e => jsStrOrNull e.name))
    c6RowEmail

def c4Old : FlowStatDoc :=
  { emptyFlowDoc with
    store := "s1"
    store_public_id := "p1"
    flow_id := "f1"
    flow_message_id := "m1"
    send_channel := "email"
    message_name := some "Welcome" }

def c4Merged : MergedFlowRecord :=
  { flow_id := "f1", flow_message_id := "m1", send_channel := "email",
    flow_name := some "My flow", flow_status := some "live", flow_archived := false,
    flow_created := none, flow_updated := none, flow_trigger_type := none,
    tagIds := [], tagNames := [], statistics := fun _ => [], details := none }

def c4SomeDetails : MessageDetails :=
  { message_name := some "Hello", message_from_email := some "a@b.c",
    message_from_label := none, message_subject_line := some "Subj",
    message_preview_text := none, message_template_id := none,
    message_transactional := false, message_smart_sending_enabled := false,
    has_experiment := false, experiment := none }

def c4MergedWithDetails : MergedFlowRecord :=
  { c4Merged with details := some c4SomeDetails }

/-- Users and records for the access-control witness. -/
def c8Users : String → Option User :=
  fun uid =>
    if uid = "u1" then
      some { stores := [{ store_public_id := "A", permissions := some ["VIEW_ANALYTICS"] }] }
    else none

def c8RecA : SearchRecord :=
  { store_public_id := "A", campaign_name := some "Summer", created_at := some 10 }

def c8RecB : SearchRecord :=
  { store_public_id := "B", campaign_name := some "Winter", created_at := some 20 }

def c8Db : List SearchRecord := [c8RecA, c8RecB]

/-! ## Theorems -/

/-- Helper: if any of the eight fan-out fetches failed, `Promise.all` rejects
with some fetch's error. -/
theorem allEight_error_of_anyFetchFailed (f : FetchOutcomes) (h : anyFetchFailed f) :
    ∃ e, allEight f = Except.error e := by
  cases h1 : f.campaigns with
  | error e => exact ⟨e, by simp only [allEight, h1]; rfl⟩
  | ok a =>
  cases h2 : f.smsCampaigns with
  | error e => exact ⟨e, by simp only [allEight, h1, h2]; rfl⟩
  | ok b =>
  cases h3 : f.tags with
  | error e => exact ⟨e, by simp only [allEight, h1, h2, h3]; rfl⟩
  | ok c =>
  cases h4 : f.flows with
  | error e => exact ⟨e, by simp only [allEight, h1, h2, h3, h4]; rfl⟩
  | ok d =>
  cases h5 : f.segments with
  | error e => exact ⟨e, by simp only [allEight, h1, h2, h3, h4, h5]; rfl⟩
  | ok s =>
  cases h6 : f.lists with
  | error e => exact ⟨e, by simp only [allEight, h1, h2, h3, h4, h5, h6]; rfl⟩
  | ok l =>
  cases h7 : f.campaignValuesReports with
  | error e => exact ⟨e, by simp only [allEight, h1, h2, h3, h4, h5, h6, h7]; rfl⟩
  | ok cv =>
  cases h8 : f.flowSeriesReports with
  | error e => exact ⟨e, by simp only [allEight, h1, h2, h3, h4, h5, h6, h7, h8]; rfl⟩
  | ok fs =>
    exact absurd h (by simp [anyFetchFailed, h1, h2, h3, h4, h5, h6, h7, h8])

/-- Helper: on a never-terminating next-link chain the `klaviyoGetAll` loop
is still running after any number of pages, whatever the accumulators. -/
theorem klaviyoGetAllGo_infinitePages (fuel : Nat) :
    ∀ url accData accInc, klaviyoGetAllGo infinitePages fuel url accData accInc = none := by
  induction fuel with
  | zero => intro url accData accInc; rfl
  | succ n ih =>
    intro url accData accInc
    simp only [klaviyoGetAllGo, infinitePages]
    exact ih (url + 1) _ _

/-- C1: claimed, a flow id dropped from an under-sized batch is requeued and
never skipped.  Refuted on the code: with input ids a–e, a full first batch,
and the second iteration starting 1.5 s in (so the burst limit 4.5 shrinks
the final two-element batch to one request), the splice-based requeue leaves
the dropped id "e" only at positions the `i += batchSize` stride never
visits: its fetch would succeed, yet it is never attempted and is absent
from the returned results. -/
theorem c1_rate_limiter_skips_requeued_id :
    "e" ∈ ["a", "b", "c", "d", "e"] ∧
    c1Env.fetch "e" = some "e" ∧
    getFlowDefinitionsRun c1Env ["a", "b", "c", "d", "e"]
      = (["a", "b", "c", "d"], ["a", "b", "c", "d"]) ∧
    "e" ∉ (getFlowDefinitionsRun c1Env ["a", "b", "c", "d", "e"]).2 ∧
    "e" ∉ getFlowDefinitions c1Env ["a", "b", "c", "d", "e"] := by
  have hrun : getFlowDefinitionsRun c1Env ["a", "b", "c", "d", "e"]
      = (["a", "b", "c", "d"], ["a", "b", "c", "d"]) := by
    simp [getFlowDefinitionsRun, getFlowDefinitionsGo, effAt, batchAt,
      effectiveBatchSize, burstLimit1000, c1Env]
  refine ⟨by simp, rfl, hrun, ?_, ?_⟩
  · rw [hrun]; simp
  · rw [getFlowDefinitions, hrun]; simp

/-- C9 counterexample: the claim that the page-following aggregation caps its
iteration count and fails past a safety threshold is false: on an upstream
sequence whose next links never terminate, the loop has neither completed
nor raised any error after 10000 pages. -/
theorem c9_counterexample_no_pagination_cap :
    klaviyoGetAllGo infinitePages 10000 0 [] [] = none :=
  klaviyoGetAllGo_infinitePages 10000 0 [] []

/-- C9 amended: `klaviyoGetAll` follows next-page links with no iteration cap
and no PaginationExceededError: on a never-terminating next chain the loop is
still running after any number of pages, and it completes exactly at a page
without a next link, returning the concatenated data and included arrays. -/
theorem c9_pagination_follows_next_until_absent :
    (∀ fuel url accData accInc,
        klaviyoGetAllGo infinitePages fuel url accData accInc = none) ∧
    (∀ (pages : Nat → Page) (fuel url : Nat) (accData accInc : List String),
        (pages url).next = none →
        klaviyoGetAllGo pages (fuel + 1) url accData accInc
          = some (accData ++ (pages url).data, accInc ++ (pages url).included)) := by
  constructor
  · exact fun fuel => klaviyoGetAllGo_infinitePages fuel
  · intro pages fuel url accData accInc hnone
    simp [klaviyoGetAllGo, hnone]

/-- C9 witness: the amended theorem applied to a one-page oracle. -/
theorem c9_pagination_witness :
    klaviyoGetAllGo singlePage 1 0 [] [] = some (["item"], []) := by
  have h := c9_pagination_follows_next_until_absent.2 singlePage 0 0 [] [] rfl
  simpa [singlePage] using h

/-- C2: when any one of the eight fan-out upstream fetches fails, the sync
aborts: the per-account lock flag is cleared, the upstream error is surfaced
to the caller, and the persisted state differs from the pre-sync state only
in that flag — no campaign stat, flow stat, timestamp, tag cache or
date-times update is persisted. -/
theorem c2_fetch_failure_aborts_sync (env : SyncEnv) (st : DBState) (store : Store)
    (date : Option Int)
    (hflag : store.is_updating_dashboard = false)
    (hstale : FRESHNESS_THRESHOLD_MS ≤
      env.now - (match store.last_dashboard_sync with | some t => t | none => 0))
    (hdate : date = none → store.last_dashboard_sync ≠ none)
    (hfail : anyFetchFailed env.fetches) :
    ∃ e, klaviyoUpdateStats env st store date =
      (Except.error (SyncError.upstream e),
       { st with storeRow := { st.storeRow with is_updating_dashboard := false } },
       fanOutEndpoints) := by
  obtain ⟨e, he⟩ := allEight_error_of_anyFetchFailed env.fetches hfail
  refine ⟨e, ?_⟩
  have hc : syncGate env store = false := by
    simp only [syncGate, hflag, Bool.false_or, decide_eq_false_iff_not, not_lt]
    omega
  unfold klaviyoUpdateStats
  rw [hc]
  simp only [Bool.false_eq_true, if_false]
  cases hd : date with
  | some d => simp [he]
  | none =>
    have hl := hdate hd
    cases hls : store.last_dashboard_sync with
    | none => exact absurd hls hl
    | some t => simp [toISOStringOfSync, he]

/-- C2 witness: a stale unlocked store whose campaigns fetch fails with
"boom". -/
theorem c2_fetch_failure_witness :
    ∃ e, klaviyoUpdateStats c2Env c2St c2Store none =
      (Except.error (SyncError.upstream e),
       { c2St with storeRow := { c2St.storeRow with is_updating_dashboard := false } },
       fanOutEndpoints) :=
  c2_fetch_failure_aborts_sync c2Env c2St c2Store none rfl (by decide)
    (fun _ => by simp [c2Store])
    (Or.inl ⟨"boom", rfl⟩)

/-- C3: when the account's sync flag is already set, or the last sync is
within the freshness threshold of the current time, the sync attempt is a
no-op: it returns the account unchanged, issues zero upstream calls and
leaves the persisted state untouched. -/
theorem c3_freshness_gate_noop (env : SyncEnv) (st : DBState) (store : Store)
    (date : Option Int)
    (h : store.is_updating_dashboard = true ∨
      env.now - (match store.last_dashboard_sync with | some t => t | none => 0)
        < FRESHNESS_THRESHOLD_MS) :
    klaviyoUpdateStats env st store date = (Except.ok store, st, []) := by
  have hc : syncGate env store = true := by
    rcases h with h | h
    · simp [syncGate, h]
    · simp [syncGate, h]
  unfold klaviyoUpdateStats
  rw [hc]
  simp

/-- C3 witness: a store whose sync flag is set is returned unchanged with no
calls and no writes. -/
theorem c3_freshness_gate_witness :
    klaviyoUpdateStats c3Env c3St c3Store none = (Except.ok c3Store, c3St, []) :=
  c3_freshness_gate_noop c3Env c3St c3Store none (Or.inl rfl)

/-- C10: an account that has never been synced (`last_dashboard_sync`
unset), synced without an explicit date, passes the freshness gate (the
unset timestamp reads as 0, far in the past) and then throws while building
the from-date ISO string — before the lock flag is set and before any
upstream call — leaving the persisted state unchanged and the row's flag
still false. -/
theorem c10_unsynced_store_throws_before_lock (env : SyncEnv) (st : DBState)
    (store : Store)
    (hnever : store.last_dashboard_sync = none)
    (hflag : store.is_updating_dashboard = false)
    (hnow : FRESHNESS_THRESHOLD_MS ≤ env.now)
    (hrowflag : st.storeRow.is_updating_dashboard = false) :
    klaviyoUpdateStats env st store none = (Except.error SyncError.invalidDate, st, []) ∧
    (klaviyoUpdateStats env st store none).2.1.storeRow.is_updating_dashboard = false := by
  have hc : syncGate env store = false := by
    simp only [syncGate, hflag, hnever, Bool.false_or, decide_eq_false_iff_not, not_lt]
    omega
  have hmain : klaviyoUpdateStats env st store none
      = (Except.error SyncError.invalidDate, st, []) := by
    unfold klaviyoUpdateStats
    rw [hc]
    simp [hnever, toISOStringOfSync]
  exact ⟨hmain, by rw [hmain]; exact hrowflag⟩

/-- C10 witness: a never-synced unlocked store one million milliseconds into
the epoch. -/
theorem c10_unsynced_store_witness :
    klaviyoUpdateStats c10Env c10St c10Store none
      = (Except.error SyncError.invalidDate, c10St, []) ∧
    (klaviyoUpdateStats c10Env c10St c10Store none).2.1.storeRow.is_updating_dashboard
      = false :=
  c10_unsynced_store_throws_before_lock c10Env c10St c10Store rfl rfl (by decide) rfl

/-- C5: every merged campaign record's statistics vector is total over the
27 fixed fields with numeric (rational) values: each field equals the
upstream row's value when the row supplies it and defaults to 0 otherwise. -/
theorem c5_campaign_stats_defaults (results : List RawRow)
    (campaigns smsCampaigns : List Campaign) (segments lists : List NamedEntity)
    (tags : List Tag) (rec : MergedCampaignRecord)
    (h : rec ∈ mergeCampaignStatsWithMeta results campaigns smsCampaigns segments lists tags) :
    ∃ r ∈ results, ∀ f, rec.statistics f = (r.statistics f).getD 0 := by
  simp only [mergeCampaignStatsWithMeta, List.mem_map] at h
  obtain ⟨r, hr, rfl⟩ := h
  exact ⟨r, (List.mem_filter.mp hr).1, fun f => rfl⟩

/-- C5 witness: a row supplying only `opens` merges to a record whose fields
are that value and 0 elsewhere. -/
theorem c5_campaign_stats_defaults_witness :
    ∃ r ∈ [c5Row], ∀ f, c5Rec.statistics f = (r.statistics f).getD 0 :=
  c5_campaign_stats_defaults [c5Row] [] [] [] [] [] c5Rec
    (by simp [mergeCampaignStatsWithMeta, campaignChannelOk, c5Row, c5Rec])

/-- C6: the campaign merge output contains only email/sms records, and its
size is exactly the number of input rows whose channel is email or sms —
each such row produces one record, rows of any other channel are dropped. -/
theorem c6_channel_filter (results : List RawRow)
    (campaigns smsCampaigns : List Campaign) (segments lists : List NamedEntity)
    (tags : List Tag) :
    (∀ rec ∈ mergeCampaignStatsWithMeta results campaigns smsCampaigns segments lists tags,
        rec.groupings.send_channel = "email" ∨ rec.groupings.send_channel = "sms") ∧
    (mergeCampaignStatsWithMeta results campaigns smsCampaigns segments lists tags).length
      = results.countP campaignChannelOk := by
  constructor
  · intro rec h
    simp only [mergeCampaignStatsWithMeta, List.mem_map] at h
    obtain ⟨r, hr, rfl⟩ := h
    have hchan := (List.mem_filter.mp hr).2
    simp only [campaignChannelOk, Bool.or_eq_true, beq_iff_eq] at hchan
    simpa [mergeCampaignOne] using hchan
  · simp [mergeCampaignStatsWithMeta, List.countP_eq_length_filter]

/-- C6 witness: from one email row and one push row the merge keeps exactly
the email row, and the kept record's channel is email or sms. -/
theorem c6_channel_filter_witness :
    (mergeCampaignStatsWithMeta [c6RowEmail, c6RowPush] [] [] [] [] []).length
        = List.countP campaignChannelOk [c6RowEmail, c6RowPush] ∧
    (c6Rec.groupings.send_channel = "email" ∨ c6Rec.groupings.send_channel = "sms") :=
  ⟨(c6_channel_filter [c6RowEmail, c6RowPush] [] [] [] [] []).2,
   (c6_channel_filter [c6RowEmail, c6RowPush] [] [] [] [] []).1 c6Rec
     (by simp [mergeCampaignStatsWithMeta, campaignChannelOk, c6RowEmail, c6RowPush, c6Rec])⟩

/-- C7: the flow merge yields exactly one output record per raw row, in
order; each record's message/experiment details are exactly the lookup entry
of its flow-message id (`some` when the id has an entry, unset otherwise, no
defaults), and its key fields and time-series statistics are copied from the
raw row. -/
theorem c7_flow_merge_per_row (results : List RawFlowRow) (flows : List Flow)
    (tags : List Tag) (messageDetailsMap : String → Option MessageDetails) :
    (mergeFlowStatsWithMeta results flows tags messageDetailsMap).length = results.length ∧
    (∀ i : Nat, ((mergeFlowStatsWithMeta results flows tags messageDetailsMap)[i]?).map
        MergedFlowRecord.details
      = (results[i]?).map (fun r => messageDetailsMap r.groupings.flow_message_id)) ∧
    (∀ i : Nat, ((mergeFlowStatsWithMeta results flows tags messageDetailsMap)[i]?).map
        (fun rec => (rec.flow_id, rec.flow_message_id, rec.send_channel))
      = (results[i]?).map
        (fun r => (r.groupings.flow_id, r.groupings.flow_message_id, r.groupings.send_channel))) ∧
    (∀ i : Nat, ((mergeFlowStatsWithMeta results flows tags messageDetailsMap)[i]?).map
        MergedFlowRecord.statistics
      = (results[i]?).map RawFlowRow.statistics) := by
  refine ⟨by simp [mergeFlowStatsWithMeta], ?_, ?_, ?_⟩
  · intro i
    simp only [mergeFlowStatsWithMeta, List.getElem?_map]
    cases results[i]? <;> rfl
  · intro i
    simp only [mergeFlowStatsWithMeta, List.getElem?_map]
    cases results[i]? <;> rfl
  · intro i
    simp only [mergeFlowStatsWithMeta, List.getElem?_map]
    cases results[i]? <;> rfl

/-- C4 counterexample: the upsert is not a full replace.  A stored flow
record carrying `message_name` "Welcome", upserted with a merged record that
has no message details (its flow definition was not fetched this sync),
keeps the old value: a field of the previously stored record survives. -/
theorem c4_counterexample_stored_field_survives :
    c4Merged.details = none ∧
    (applyFlowSet c4Old c4Merged "s1" "p1" 100).message_name = some "Welcome" ∧
    upsertFlowOne "s1" "p1" 100 c4Merged [c4Old]
      = [applyFlowSet c4Old c4Merged "s1" "p1" 100] := by
  refine ⟨rfl, ?_, ?_⟩
  · simp [applyFlowSet, c4Merged, c4Old, emptyFlowDoc]
  · simp [upsertFlowOne, flowKeyMatches, c4Merged, c4Old, emptyFlowDoc]

/-- C4 amended: the upsert overwrites exactly the fields present in the
merged record.  For campaign records the merged record supplies every stored
field, so the result is independent of the previous document (a full
replace); for flow records applying the same merged record twice equals
applying it once (so identical upstream data syncs idempotently), and when
the merged record does carry message details those overwrite the stored
ones. -/
theorem c4_upsert_set_semantics :
    (∀ (old1 old2 : CampaignStatDoc) (stat : MergedCampaignRecord) (sid pid : String),
        applyCampaignSet old1 stat sid pid = applyCampaignSet old2 stat sid pid) ∧
    (∀ (old : FlowStatDoc) (stat : MergedFlowRecord) (sid pid : String) (now : Int),
        applyFlowSet (applyFlowSet old stat sid pid now) stat sid pid now
          = applyFlowSet old stat sid pid now) ∧
    (∀ (old : FlowStatDoc) (stat : MergedFlowRecord) (sid pid : String) (now : Int)
        (d : MessageDetails), stat.details = some d →
        (applyFlowSet old stat sid pid now).message_name = d.message_name ∧
        (applyFlowSet old stat sid pid now).message_subject_line = d.message_subject_line) := by
  refine ⟨fun old1 old2 stat sid pid => rfl, ?_, ?_⟩
  · intro old stat sid pid now
    cases hd : stat.details with
    | none => simp only [applyFlowSet, hd]
    | some d =>
      cases hde : d.experiment with
      | none => simp only [applyFlowSet, hd, hde]
      | some e => simp only [applyFlowSet, hd, hde]
  · intro old stat sid pid now d hd
    cases hde : d.experiment with
    | none => simp [applyFlowSet, hd, hde]
    | some e => simp [applyFlowSet, hd, hde]

/-- C4 witness: applying a merged record that does carry message details
overwrites the stored message fields with the new values. -/
theorem c4_upsert_set_witness :
    (applyFlowSet c4Old c4MergedWithDetails "s1" "p1" 100).message_name = some "Hello" ∧
    (applyFlowSet c4Old c4MergedWithDetails "s1" "p1" 100).message_subject_line = some "Subj" :=
  c4_upsert_set_semantics.2.2 c4Old c4MergedWithDetails "s1" "p1" 100 c4SomeDetails rfl

/-- Helper: a record returned by the find pipeline is a stored record
matching the filter (sorting permutes, skip/limit select a sublist). -/
theorem mem_runFind (db : List SearchRecord) (p : SearchRecord → Bool)
    (le : SearchRecord → SearchRecord → Bool) (skip limit : Nat)
    (rec : SearchRecord) (h : rec ∈ runFind db p le skip limit) :
    rec ∈ db ∧ p rec = true := by
  unfold runFind at h
  have h1 := List.mem_of_mem_take h
  have h2 := List.mem_of_mem_drop h1
  have h3 := (List.perm_insertionSort _ _).mem_iff.mp h2
  exact ⟨(List.mem_filter.mp h3).1, (List.mem_filter.mp h3).2⟩

/-- C8: every record returned by the access-controlled search belongs to an
account grant of the requesting user that passes the permission check (under
which ADMIN implies every permission); an unknown user id, or a user none of
whose grants pass the check, receives the empty result with total 0, never
an error. -/
theorem c8_access_control_search (users : String → Option User)
    (db : List SearchRecord) (userId : String) (query : Option String)
    (req : String) (le : SearchRecord → SearchRecord → Bool)
    (skip limit : Nat) (dateRange : Option (Int × Int)) :
    (∀ rec ∈ (searchWithAccessControl users db userId query req le skip limit dateRange).1,
        ∃ u, users userId = some u ∧ ∃ sa ∈ u.stores,
          hasPermission (some sa) req = true ∧ rec.store_public_id = sa.store_public_id) ∧
    (users userId = none →
        searchWithAccessControl users db userId query req le skip limit dateRange = ([], 0)) ∧
    (∀ u, users userId = some u →
        (∀ sa ∈ u.stores, hasPermission (some sa) req = false) →
        searchWithAccessControl users db userId query req le skip limit dateRange = ([], 0)) ∧
    (∀ (sa : StoreAccess) (perms : List String) (p : String),
        sa.permissions = some perms → perms.contains "ADMIN" = true →
        hasPermission (some sa) p = true) := by
  refine ⟨?_, ?_, ?_, ?_⟩
  · intro rec hrec
    cases hu : users userId with
    | none => simp [searchWithAccessControl, hu] at hrec
    | some u =>
      refine ⟨u, rfl, ?_⟩
      cases hacc : (accessibleStores u req).isEmpty with
      | true => simp [searchWithAccessControl, hu, hacc] at hrec
      | false =>
        simp only [searchWithAccessControl, hu, hacc, Bool.false_eq_true, if_false] at hrec
        obtain ⟨hdb, hq⟩ := mem_runFind db _ le skip limit rec hrec
        simp only [searchMatches, Bool.and_eq_true] at hq
        have hmem := List.mem_of_elem_eq_true hq.1.1
        obtain ⟨sa, hsa, heq⟩ := List.mem_map.mp hmem
        have hfil : sa ∈ u.stores ∧ hasPermission (some sa) req = true := by
          simpa [accessibleStores] using hsa
        exact ⟨sa, hfil.1, hfil.2, heq.symm⟩
  · intro hu
    simp [searchWithAccessControl, hu]
  · intro u hu hall
    have hfil : accessibleStores u req = [] := by
      simp only [accessibleStores, List.filter_eq_nil_iff]
      intro sa hsa
      simp [hall sa hsa]
    simp [searchWithAccessControl, hu, hfil]
  · intro sa perms p hperm hadm
    simp only [hasPermission, hperm]
    simp only [Bool.or_eq_true]
    exact Or.inl hadm

/-- C8 witness: user u1 holds VIEW_ANALYTICS on account A only; the record
returned for them belongs to a grant passing the permission check. -/
theorem c8_access_control_witness :
    ∃ u, c8Users "u1" = some u ∧ ∃ sa ∈ u.stores,
      hasPermission (some sa) "VIEW_ANALYTICS" = true ∧
      c8RecA.store_public_id = sa.store_public_id :=
  (c8_access_control_search c8Users c8Db "u1" none "VIEW_ANALYTICS"
      (fun _ _ => true) 0 50 none).1 c8RecA (by decide)

end EmailServer
